import Mathlib

/-!
Shallow embedding of the two web backends of Patient_Doctor_Med_Report:
  * `src/backend/main.py` — FastAPI service (Whisper transcription + SambaNova
    LLM, Markdown report, global `summary_data` slot, download/preview).
  * `src/doctor-patient AI summerizer/app.py` — Flask service (Whisper
    transcription + BART summarizer, fixed four-field structured summary,
    PDF artifact on disk).

The filesystem is modelled as an association list from path to contents
(file writes are assumed to succeed; the ML model invocations are the
fallible adapters, modelled as `String → Except String String`).  Python
exceptions are `Except.error`; an exception that escapes a Flask handler is
the `FlaskOutcome.exn` constructor, which the framework maps to an HTTP 500
server error.  State mutations made before an exception persist, so state is
threaded explicitly through each step.  The states also count adapter
invocations, so that "no retry / no fallback" claims are expressible.
-/

/-- A filesystem: association list mapping a path to the file's contents. -/
def FS : Type := List (String × String)

instance : DecidableEq FS := by
  unfold FS
  infer_instance

/-- `os.path.exists`. -/
def FS.existsb (fs : FS) (p : String) : Bool :=
  (List.any fs (fun e => e.1 == p))

/-- Read a file's contents, `none` when the path does not exist. -/
def FS.read? (fs : FS) (p : String) : Option String :=
  (List.find? (fun e => e.1 == p) fs).map (fun e => e.2)

/-- Write (create or overwrite) a file. -/
def FS.write (fs : FS) (p c : String) : FS :=
  (p, c) :: List.filter (fun e => e.1 != p) fs

/-- `os.remove` (modelled as total: removing a missing path is a no-op). -/
def FS.remove (fs : FS) (p : String) : FS :=
  List.filter (fun e => e.1 != p) fs

theorem FS.read?_write_self (fs : FS) (p c : String) :
    (fs.write p c).read? p = some c := by
  simp [FS.write, FS.read?, List.find?]

theorem FS.existsb_write_self (fs : FS) (p c : String) :
    (fs.write p c).existsb p = true := by
  simp [FS.write, FS.existsb]

theorem FS.existsb_remove_self (fs : FS) (p : String) :
    (fs.remove p).existsb p = false := by
  simp [FS.remove, FS.existsb]

theorem FS.existsb_write_other (fs : FS) (p q c : String) (h : q ≠ p) :
    (fs.write p c).existsb q = fs.existsb q := by
  simp only [FS.write, FS.existsb, List.any_cons, List.any_filter]
  have hpq : (p == q) = false := beq_eq_false_iff_ne.mpr (Ne.symm h)
  rw [hpq]
  simp only [Bool.false_or]
  congr 1
  funext a
  by_cases ha : a.1 = q
  · simp [ha, bne]
    exact h
  · simp [ha]

/-! ## FastAPI backend: `src/backend/main.py` -/

/-- The fallible external services of `main.py`: `whisper_model.transcribe`
(applied to the contents of the audio file) and `llm.invoke` (applied to the
formatted prompt).  A Python exception is `Except.error` carrying `str(e)`. -/
structure Adapters where
  transcribe : String → Except String String
  invoke : String → Except String String

/-- HTTP responses produced by the FastAPI endpoints: `JSONResponse` bodies
(string-valued objects), `HTTPException`s rendered by the framework, and
`FileResponse` attachments. -/
inductive Response where
  | json (body : List (String × String))
  | httpError (status : Nat) (detail : String)
  | fileAttachment (filename : String) (contents : String) (mediaType : String)
deriving DecidableEq

/-- Process state of `main.py`: the working-directory filesystem, the global
`summary_data` slot (`none` = the initial empty dict), the delayed-deletion
tasks scheduled via `asyncio.create_task` (delay in seconds, file name), and
invocation counters for the two adapters. -/
structure FastState where
  fs : FS
  summary_data : Option String
  pending : List (Nat × String)
  transcribeCalls : Nat
  llmCalls : Nat
deriving DecidableEq

/-- Fresh-process state: empty working directory, `summary_data = {}`. -/
def fastInit : FastState := ⟨[], none, [], 0, 0⟩

/-- Line 92: `file_path = f"temp_{file.filename}"`. -/
def upload_temp_path (filename : String) : String := "temp_" ++ filename

/-- `whisper_model.transcribe(path)["text"]`: the transcription adapter
applied to the contents of the file at `path`; a missing file is an I/O
exception. -/
def transcribeFile (ad : Adapters) (fs : FS) (path : String) : Except String String :=
  match fs.read? path with
  | none => Except.error ("No such file or directory: " ++ path)
  | some c => ad.transcribe c

/-- The system template of `medical_report_prompt` (lines 41-86), with the
spot of the `{transcription}` placeholder marked by splitting the string just
before the quoted transcription. -/
def medical_report_template_before : String :=
  "You are a professional medical assistant specializing in structuring medical reports.\n" ++
  "Given a raw transcription of a clinical consultation, analyze and extract key medical insights.\n" ++
  "\n" ++
  "### **Patient Summary Report**\n" ++
  "#### **1. Patient Information:**\n" ++
  "- Name (if mentioned):\n" ++
  "- Age (if mentioned):\n" ++
  "- Gender (if mentioned):\n" ++
  "- Chief Complaint:\n" ++
  "\n" ++
  "#### **2. Present Illness:**\n" ++
  "- Symptoms:\n" ++
  "- Duration:\n" ++
  "- Aggravating/Relieving Factors:\n" ++
  "- Relevant Medical History:\n" ++
  "\n" ++
  "#### **3. Physical Examination (if discussed):**\n" ++
  "- Vitals:\n" ++
  "- Physical Findings:\n" ++
  "\n" ++
  "#### **4. Diagnosis (if discussed):**\n" ++
  "- Possible Conditions Considered:\n" ++
  "- Suggested Diagnostic Tests:\n" ++
  "\n" ++
  "#### **5. Treatment Plan:**\n" ++
  "- Medications Prescribed:\n" ++
  "- Lifestyle Recommendations:\n" ++
  "- Follow-up Instructions:\n" ++
  "\n" ++
  "#### **6. Additional Notes:**\n" ++
  "- Other Observations:\n" ++
  "\n" ++
  "---\n" ++
  "If any information is missing in the transcription, explicitly state \x22**Not mentioned**\x22.\n" ++
  "Ensure the report is **concise, structured, and medically relevant**.\n" ++
  "Maintain **professional medical language** while ensuring readability.\n" ++
  "\n" ++
  "---\n" ++
  "Transcription:\n" ++
  "\x22"

/-- Line 100: `medical_report_prompt.format(transcription=transcription)` —
the template with the transcription substituted for the placeholder. -/
def medical_report_prompt_format (transcription : String) : String :=
  medical_report_template_before ++ transcription ++ "\x22\n"

/-- `POST /upload` handler `upload_audio` (lines 88-116): persist the upload
to `temp_<filename>`, transcribe, invoke the LLM on the formatted prompt,
store the title-prefixed Markdown in the global `summary_data`, respond with
`{"summary": ...}`; any exception becomes a 500 `HTTPException` wrapping
`str(e)`; the `finally` block removes the temporary file on every exit
path. -/
def upload_audio (ad : Adapters) (filename : String) (contents : String)
    (st : FastState) : Response × FastState :=
  let file_path := upload_temp_path filename
  let st1 : FastState := { st with fs := st.fs.write file_path contents }
  let st2 : FastState := { st1 with transcribeCalls := st1.transcribeCalls + 1 }
  let (resp, st3) :=
    match transcribeFile ad st2.fs file_path with
    | Except.error e =>
        (Response.httpError 500 ("Error processing file: " ++ e), st2)
    | Except.ok transcription =>
        let prompt := medical_report_prompt_format transcription
        let st2a : FastState := { st2 with llmCalls := st2.llmCalls + 1 }
        match ad.invoke prompt with
        | Except.error e =>
            (Response.httpError 500 ("Error processing file: " ++ e), st2a)
        | Except.ok summary_text =>
            let markdown_summary := "# Medical Report\n\n" ++ summary_text
            let st2b : FastState := { st2a with summary_data := some markdown_summary }
            (Response.json [("summary", markdown_summary)], st2b)
  let st4 : FastState :=
    if st3.fs.existsb file_path then { st3 with fs := st3.fs.remove file_path } else st3
  (resp, st4)

/-- `POST /record` handler `process_recorded_audio` (lines 118-121):
`return await upload_audio(audio)`. -/
def process_recorded_audio (ad : Adapters) (filename : String) (contents : String)
    (st : FastState) : Response × FastState :=
  upload_audio ad filename contents st

/-- The `/upload` route as exposed through FastAPI: `file: UploadFile =
File(...)` (line 89) declares the multipart field required, so the framework
rejects a request lacking it with a 422 validation error before the handler
runs; otherwise the handler receives the part's filename and bytes. -/
def upload_route (ad : Adapters) (filePart : Option (String × String))
    (st : FastState) : Response × FastState :=
  match filePart with
  | none => (Response.httpError 422 "Field required", st)
  | some (filename, contents) => upload_audio ad filename contents st

/-- The `/record` route as exposed through FastAPI: required field `audio`
(line 119), delegating to `process_recorded_audio`. -/
def record_route (ad : Adapters) (audioPart : Option (String × String))
    (st : FastState) : Response × FastState :=
  match audioPart with
  | none => (Response.httpError 422 "Field required", st)
  | some (filename, contents) => process_recorded_audio ad filename contents st

/-- `GET /download_markdown` (lines 124-155): 400 when no summary exists;
otherwise write `medical_summary.md`, schedule the 10-second delayed
deletion task (not awaited: it is appended to `pending`, not run), and serve
the file.  The `raise` on line 136 is kept although the preceding write
makes it unreachable; the outer handler would re-wrap it with
`str(HTTPException(500, ...)) = "500: <detail>"`. -/
def download_markdown (st : FastState) : Response × FastState :=
  match st.summary_data with
  | none =>
      (Response.httpError 400 "No summary available. Please upload an audio file first.", st)
  | some report =>
      let md_filename := "medical_summary.md"
      let st1 : FastState := { st with fs := st.fs.write md_filename report }
      if st1.fs.existsb md_filename then
        let st2 : FastState := { st1 with pending := st1.pending ++ [(10, md_filename)] }
        (Response.fileAttachment md_filename report "text/markdown", st2)
      else
        (Response.httpError 500
          "Error generating Markdown file: 500: Failed to generate Markdown file.", st1)

/-- The body of the scheduled `delete_file` coroutine (lines 146-149): after
sleeping for the task's delay, remove the file if it still exists.  Running
a pending task transforms the state; until it is run, the file stays. -/
def run_delete_file (st : FastState) (task : Nat × String) : FastState :=
  if st.fs.existsb task.2 then { st with fs := st.fs.remove task.2 } else st

/-- `GET /preview_markdown` (lines 157-163). -/
def preview_markdown (st : FastState) : Response × FastState :=
  match st.summary_data with
  | none =>
      (Response.httpError 400 "No summary available. Please upload an audio file first.", st)
  | some report => (Response.json [("markdown", report)], st)

/-! ## Flask backend: `src/doctor-patient AI summerizer/app.py` -/

/-- The fallible external services of `app.py`: `whisper_model.transcribe`
(applied to the audio file's contents) and the BART `summarizer` pipeline
(applied to the transcription, yielding the `summary_text` field). -/
structure FlaskAdapters where
  transcribe : String → Except String String
  summarize : String → Except String String

/-- A JSON member value, as produced by `jsonify` in this app: a string, or
a flat object with string members (the structured summary).  A whole
`jsonify` body is a list of named members. -/
inductive JVal where
  | str (s : String)
  | obj (fields : List (String × String))
deriving DecidableEq

/-- Outcome of a Flask request: a `jsonify` response (HTTP 200), a
`send_file` attachment (HTTP 200), or an exception escaping the handler,
which the framework turns into an HTTP 500 server error carrying the
exception's message (the app runs with `debug=True`). -/
inductive FlaskOutcome where
  | json (body : List (String × JVal))
  | sentFile (filename : String) (contents : String)
  | exn (message : String)
deriving DecidableEq

/-- The HTTP status code the framework attaches to an outcome: `jsonify` and
`send_file` default to 200; an uncaught exception yields 500. -/
def FlaskOutcome.status : FlaskOutcome → Nat
  | FlaskOutcome.json _ => 200
  | FlaskOutcome.sentFile _ _ => 200
  | FlaskOutcome.exn _ => 500

/-- Process state of `app.py`: the working-directory filesystem plus
invocation counters for the two adapters (there is no in-memory report slot;
the report lives in `summary.pdf` on disk). -/
structure FlaskState where
  fs : FS
  transcribeCalls : Nat
  summarizeCalls : Nat
deriving DecidableEq

/-- Fresh-process state with an empty working directory. -/
def flaskInit : FlaskState := ⟨[], 0, 0⟩

/-- The four-field structured summary (lines 64-71). -/
structure StructuredSummary where
  symptoms : String
  advice : String
  medication : String
  additional_notes : String
deriving DecidableEq

/-- `generate_structured_summary` (lines 64-71). -/
def generate_structured_summary (summary : String) : StructuredSummary :=
  { symptoms := "Based on the conversation, the patient reported: " ++ summary
    advice := "The doctor recommends: Further examination needed."
    medication := "No specific medication mentioned in the summary."
    additional_notes := "" }

/-- The JSON rendering of a structured summary, as `jsonify` serializes the
dict returned by `generate_structured_summary`. -/
def StructuredSummary.toJVal (s : StructuredSummary) : JVal :=
  JVal.obj [("symptoms", s.symptoms), ("advice", s.advice),
            ("medication", s.medication),
            ("additional_notes", s.additional_notes)]

/-- The text drawn onto the PDF canvas by `generate_pdf` (lines 73-109),
concatenated in drawing order: title, blank patient-detail fields, each
section heading followed by its content, and the heading of the empty notes
rectangle.  The loop on lines 90-92 draws each newline-separated line of the
symptoms on its own row; rejoined in drawing order that is the symptoms text
itself. -/
def generate_pdf_text (summary : StructuredSummary) : String :=
  "Medical Conversation Summary\n" ++
  "Patient Details:\n" ++
  "Name: _________________\n" ++
  "Age: ____  Gender: ____\n" ++
  "Medical Record Number: __________\n" ++
  "Symptoms:\n" ++
  summary.symptoms ++ "\n" ++
  "Doctor\x27s Advice:\n" ++
  summary.advice ++ "\n" ++
  "Medication and Dosage:\n" ++
  summary.medication ++ "\n" ++
  "Additional Notes:\n"

/-- Flask's `whisper_model.transcribe(filename)["text"]`: the adapter on the
contents of the file at `filename`. -/
def flaskTranscribeFile (ad : FlaskAdapters) (fs : FS) (path : String) :
    Except String String :=
  match fs.read? path with
  | none => Except.error ("No such file or directory: " ++ path)
  | some c => ad.transcribe c

/-- `process_audio` (lines 47-62): transcribe, summarize, build the
structured summary, render `summary.pdf` to disk, and return
`{'summary': <object>, 'pdf': 'summary.pdf'}`.  There is no `try`/`except`
and no cleanup: an adapter exception propagates out of the handler, and the
input audio file is never deleted. -/
def process_audio (ad : FlaskAdapters) (filename : String) (st : FlaskState) :
    FlaskOutcome × FlaskState :=
  let st1 : FlaskState := { st with transcribeCalls := st.transcribeCalls + 1 }
  match flaskTranscribeFile ad st1.fs filename with
  | Except.error e => (FlaskOutcome.exn e, st1)
  | Except.ok transcription =>
      let st2 : FlaskState := { st1 with summarizeCalls := st1.summarizeCalls + 1 }
      match ad.summarize transcription with
      | Except.error e => (FlaskOutcome.exn e, st2)
      | Except.ok summary =>
          let structured_summary := generate_structured_summary summary
          let pdf_filename := "summary.pdf"
          let st3 : FlaskState :=
            { st2 with fs := st2.fs.write pdf_filename (generate_pdf_text structured_summary) }
          (FlaskOutcome.json
            [("summary", structured_summary.toJVal), ("pdf", JVal.str pdf_filename)], st3)

/-- Fixed audio path saved by `upload_file` (line 33). -/
def flask_upload_path : String := "uploaded_audio.wav"

/-- Fixed audio path saved by `record_audio` (line 43). -/
def flask_record_path : String := "recorded_audio.wav"

/-- `POST /upload` handler `upload_file` (lines 25-35).  The request's file
part is `none` when the multipart body has no `file` field, otherwise
`some (filename, contents)`.  A `FileStorage` is truthy iff its filename is
non-empty, so after the empty-filename check `if file:` always succeeds. -/
def upload_file (ad : FlaskAdapters) (filePart : Option (String × String))
    (st : FlaskState) : FlaskOutcome × FlaskState :=
  match filePart with
  | none => (FlaskOutcome.json [("error", JVal.str "No file part")], st)
  | some (fname, contents) =>
      if fname == "" then
        (FlaskOutcome.json [("error", JVal.str "No selected file")], st)
      else
        let st1 : FlaskState := { st with fs := st.fs.write flask_upload_path contents }
        process_audio ad flask_upload_path st1

/-- `POST /record` handler `record_audio` (lines 37-45).  There is no
empty-filename check here; with an empty filename the `FileStorage` is
falsy, the function falls through and returns `None`, which Flask reports
as a TypeError (an uncaught exception, HTTP 500). -/
def record_audio (ad : FlaskAdapters) (audioPart : Option (String × String))
    (st : FlaskState) : FlaskOutcome × FlaskState :=
  match audioPart with
  | none => (FlaskOutcome.json [("error", JVal.str "No audio data")], st)
  | some (fname, contents) =>
      if fname == "" then
        (FlaskOutcome.exn "The view function did not return a valid response.", st)
      else
        let st1 : FlaskState := { st with fs := st.fs.write flask_record_path contents }
        process_audio ad flask_record_path st1

/-- `GET /download_pdf` (lines 111-113): `send_file('summary.pdf', ...)`
with no existence guard; when the file is absent `send_file` raises
`FileNotFoundError`, an uncaught exception (HTTP 500). -/
def download_pdf (st : FlaskState) : FlaskOutcome × FlaskState :=
  match st.fs.read? "summary.pdf" with
  | none =>
      (FlaskOutcome.exn "No such file or directory: summary.pdf", st)
  | some c => (FlaskOutcome.sentFile "summary.pdf" c, st)

/-! ## Concrete adapters for witnesses and counterexamples -/

/-- Always-succeeding FastAPI adapters for concrete runs: the transcription
is the audio contents themselves and the LLM answers `"S"`. -/
def okAdapters : Adapters := ⟨fun c => Except.ok c, fun _ => Except.ok "S"⟩

/-- FastAPI adapters whose transcription raises. -/
def errTranscribeAdapters : Adapters :=
  ⟨fun _ => Except.error "boom", fun p => Except.ok p⟩

/-- FastAPI adapters whose LLM invocation raises. -/
def errInvokeAdapters : Adapters :=
  ⟨fun c => Except.ok c, fun _ => Except.error "llmboom"⟩

/-- Always-succeeding Flask adapters for concrete runs. -/
def flaskOk : FlaskAdapters := ⟨fun c => Except.ok c, fun t => Except.ok t⟩

/-- Flask adapters whose transcription raises. -/
def flaskErrTranscribe : FlaskAdapters :=
  ⟨fun _ => Except.error "fboom", fun t => Except.ok t⟩

/-- Flask adapters whose summarization raises. -/
def flaskErrSummarize : FlaskAdapters :=
  ⟨fun c => Except.ok c, fun _ => Except.error "sboom"⟩

/-! ## Claims -/

/-- C9: `generate_structured_summary` returns exactly the four named
sections: `symptoms` is the fixed prefix concatenated with the input,
`advice` and `medication` are fixed constants, `additional_notes` is empty;
its JSON serialization has exactly those four keys. -/
theorem c9_structured_summary_fields (s : String) :
    (generate_structured_summary s).symptoms =
      "Based on the conversation, the patient reported: " ++ s ∧
    (generate_structured_summary s).advice =
      "The doctor recommends: Further examination needed." ∧
    (generate_structured_summary s).medication =
      "No specific medication mentioned in the summary." ∧
    (generate_structured_summary s).additional_notes = "" ∧
    (generate_structured_summary s).toJVal = JVal.obj
      [("symptoms", "Based on the conversation, the patient reported: " ++ s),
       ("advice", "The doctor recommends: Further examination needed."),
       ("medication", "No specific medication mentioned in the summary."),
       ("additional_notes", "")] :=
  ⟨rfl, rfl, rfl, rfl, rfl⟩

/-- C10: in the Flask variant, an upload whose file part has an empty
filename gets the `No selected file` error response, the state is unchanged
(nothing written to disk), and neither adapter is invoked (the call
counters are those of the incoming state). -/
theorem c10_empty_filename_rejected (fad : FlaskAdapters) (c : String) (st : FlaskState) :
    (upload_file fad (some ("", c)) st).1 =
      FlaskOutcome.json [("error", JVal.str "No selected file")] ∧
    (upload_file fad (some ("", c)) st).2 = st :=
  ⟨rfl, rfl⟩

/-- C4 counterexample: a Flask upload request with no `file` part is
answered by `jsonify({'error': 'No file part'})`, which carries HTTP status
200 — not a 4xx client error as the claim states. -/
theorem c4_counterexample :
    (upload_file flaskOk none flaskInit).1 =
      FlaskOutcome.json [("error", JVal.str "No file part")] ∧
    (upload_file flaskOk none flaskInit).1.status = 200 ∧
    ¬ (400 ≤ (upload_file flaskOk none flaskInit).1.status ∧
        (upload_file flaskOk none flaskInit).1.status ≤ 499) := by
  decide

/-- C4 (amended): a missing multipart file field is rejected by the FastAPI
routes with a 422 validation (client) error, while the Flask handlers
return a descriptive JSON error body with HTTP status 200, not a 4xx
status. -/
theorem c4_missing_field_responses :
    (∀ (ad : Adapters) (st : FastState),
      upload_route ad none st = (Response.httpError 422 "Field required", st)) ∧
    (∀ (ad : Adapters) (st : FastState),
      record_route ad none st = (Response.httpError 422 "Field required", st)) ∧
    (∀ (fad : FlaskAdapters) (st : FlaskState),
      upload_file fad none st =
        (FlaskOutcome.json [("error", JVal.str "No file part")], st) ∧
      (upload_file fad none st).1.status = 200) ∧
    (∀ (fad : FlaskAdapters) (st : FlaskState),
      record_audio fad none st =
        (FlaskOutcome.json [("error", JVal.str "No audio data")], st) ∧
      (record_audio fad none st).1.status = 200) :=
  ⟨fun _ _ => rfl, fun _ _ => rfl, fun _ _ => ⟨rfl, rfl⟩, fun _ _ => ⟨rfl, rfl⟩⟩

/-- C1 counterexample: in a fresh Flask process (no upload ever, no
`summary.pdf` on disk), `GET /download_pdf` raises an uncaught
`FileNotFoundError`, which the framework reports as a 500 server error —
not a client (4xx) error response. -/
theorem c1_counterexample :
    (download_pdf flaskInit).1 =
      FlaskOutcome.exn "No such file or directory: summary.pdf" ∧
    (download_pdf flaskInit).1.status = 500 ∧
    ¬ (400 ≤ (download_pdf flaskInit).1.status ∧
        (download_pdf flaskInit).1.status ≤ 499) := by
  decide

/-- C1 (amended): before any successful upload, the FastAPI retrieval
endpoints (`preview_markdown`, `download_markdown`) return a 400 client
error without touching the state; the Flask `download_pdf`, by contrast,
raises an uncaught file-not-found exception (500 server error). -/
theorem c1_retrieval_before_upload (st : FastState) (fst : FlaskState)
    (h : st.summary_data = none) (hf : fst.fs.read? "summary.pdf" = none) :
    (preview_markdown st).1 =
      Response.httpError 400 "No summary available. Please upload an audio file first." ∧
    (preview_markdown st).2 = st ∧
    (download_markdown st).1 =
      Response.httpError 400 "No summary available. Please upload an audio file first." ∧
    (download_markdown st).2 = st ∧
    (download_pdf fst).1 =
      FlaskOutcome.exn "No such file or directory: summary.pdf" ∧
    (download_pdf fst).1.status = 500 := by
  refine ⟨?_, ?_, ?_, ?_, ?_, ?_⟩ <;>
    simp [preview_markdown, download_markdown, download_pdf, FlaskOutcome.status, h, hf]

/-- Witness for C1 (amended) at the fresh states. -/
theorem c1_retrieval_before_upload_witness :
    fastInit.summary_data = none ∧
    flaskInit.fs.read? "summary.pdf" = none ∧
    (preview_markdown fastInit).1 =
      Response.httpError 400 "No summary available. Please upload an audio file first." ∧
    (download_pdf flaskInit).1.status = 500 := by
  refine ⟨rfl, rfl, ?_, ?_⟩
  · exact (c1_retrieval_before_upload fastInit flaskInit rfl rfl).1
  · exact (c1_retrieval_before_upload fastInit flaskInit rfl rfl).2.2.2.2.2

/-- C8: when a report exists, `download_markdown` serves
`medical_summary.md` and schedules — without running or awaiting it — a
delayed-deletion task with the fixed 10-second delay; at the moment the
response is returned the file is still on disk, and running the scheduled
`delete_file` task removes it. -/
theorem c8_delayed_deletion (st : FastState) (r : String)
    (h : st.summary_data = some r) :
    (download_markdown st).1 = Response.fileAttachment "medical_summary.md" r "text/markdown" ∧
    (download_markdown st).2.pending = st.pending ++ [(10, "medical_summary.md")] ∧
    (download_markdown st).2.fs.existsb "medical_summary.md" = true ∧
    (run_delete_file (download_markdown st).2 (10, "medical_summary.md")).fs.existsb
      "medical_summary.md" = false := by
  refine ⟨?_, ?_, ?_, ?_⟩ <;>
    simp [download_markdown, run_delete_file, h, FS.existsb_write_self,
      FS.existsb_remove_self]

/-- Witness for C8 at a concrete state holding the report `"R"`. -/
theorem c8_delayed_deletion_witness :
    ({ fastInit with summary_data := some "R" } : FastState).summary_data = some "R" ∧
    (download_markdown { fastInit with summary_data := some "R" }).2.pending =
      [(10, "medical_summary.md")] ∧
    (run_delete_file (download_markdown { fastInit with summary_data := some "R" }).2
      (10, "medical_summary.md")).fs.existsb "medical_summary.md" = false := by
  refine ⟨rfl, ?_, ?_⟩
  · exact (c8_delayed_deletion { fastInit with summary_data := some "R" } "R" rfl).2.1
  · exact (c8_delayed_deletion { fastInit with summary_data := some "R" } "R" rfl).2.2.2

/-- C2 counterexample: in the Flask variant the saved audio file is never
deleted — after a successful upload of `("a.wav", "x")` in a fresh process,
`uploaded_audio.wav` is still on disk when the request has completed. -/
theorem c2_counterexample :
    ((upload_file flaskOk (some ("a.wav", "x")) flaskInit).2.fs.existsb
      flask_upload_path) = true := by
  decide

/-- C2 (amended): the FastAPI `upload_audio` removes its temporary audio
file on every exit path (transcription failure, LLM failure, and success
alike), so it is absent from the final state; the Flask handlers, which
have no cleanup, leave the saved audio file on disk after the request
completes, on success and on adapter failure alike. -/
theorem c2_temp_file_cleanup :
    (∀ (ad : Adapters) (f c : String) (st : FastState),
      ((upload_audio ad f c st).2.fs.existsb (upload_temp_path f)) = false) ∧
    (∀ (fad : FlaskAdapters) (fn c : String) (st : FlaskState),
      fn ≠ "" →
        ((upload_file fad (some (fn, c)) st).2.fs.existsb flask_upload_path) = true) ∧
    (∀ (fad : FlaskAdapters) (fn c : String) (st : FlaskState),
      fn ≠ "" →
        ((record_audio fad (some (fn, c)) st).2.fs.existsb flask_record_path) = true) := by
  refine ⟨?_, ?_, ?_⟩
  · intro ad f c st
    unfold upload_audio
    cases htr : transcribeFile ad ((st.fs).write (upload_temp_path f) c) (upload_temp_path f) with
    | error e => simp [htr, FS.existsb_write_self, FS.existsb_remove_self]
    | ok t =>
      cases hin : ad.invoke (medical_report_prompt_format t) with
      | error e => simp [htr, hin, FS.existsb_write_self, FS.existsb_remove_self]
      | ok s => simp [htr, hin, FS.existsb_write_self, FS.existsb_remove_self]
  · intro fad fn c st hfn
    simp only [upload_file, beq_iff_eq, if_neg hfn, process_audio]
    cases htr : flaskTranscribeFile fad ((st.fs).write flask_upload_path c) flask_upload_path with
    | error e => simp [htr, FS.existsb_write_self]
    | ok t =>
      cases hsum : fad.summarize t with
      | error e => simp [htr, hsum, FS.existsb_write_self]
      | ok s =>
        simp [htr, hsum]
        rw [FS.existsb_write_other]
        · exact FS.existsb_write_self st.fs flask_upload_path c
        · decide
  · intro fad fn c st hfn
    simp only [record_audio, beq_iff_eq, if_neg hfn, process_audio]
    cases htr : flaskTranscribeFile fad ((st.fs).write flask_record_path c) flask_record_path with
    | error e => simp [htr, FS.existsb_write_self]
    | ok t =>
      cases hsum : fad.summarize t with
      | error e => simp [htr, hsum, FS.existsb_write_self]
      | ok s =>
        simp [htr, hsum]
        rw [FS.existsb_write_other]
        · exact FS.existsb_write_self st.fs flask_record_path c
        · decide

/-- Witness for C2 (amended) at concrete inputs for all three conjuncts. -/
theorem c2_temp_file_cleanup_witness :
    ((upload_audio okAdapters "a.wav" "x" fastInit).2.fs.existsb
      (upload_temp_path "a.wav")) = false ∧
    ("a.wav" : String) ≠ "" ∧
    ((upload_file flaskOk (some ("a.wav", "x")) flaskInit).2.fs.existsb
      flask_upload_path) = true ∧
    ((record_audio flaskOk (some ("a.wav", "x")) flaskInit).2.fs.existsb
      flask_record_path) = true := by
  refine ⟨c2_temp_file_cleanup.1 okAdapters "a.wav" "x" fastInit, by decide, ?_, ?_⟩
  · exact c2_temp_file_cleanup.2.1 flaskOk "a.wav" "x" flaskInit (by decide)
  · exact c2_temp_file_cleanup.2.2 flaskOk "a.wav" "x" flaskInit (by decide)

/-- C3: when an adapter raises during upload processing, the request ends
in a 5xx server error carrying the underlying exception's message, with no
retry or fallback: in the FastAPI variant the handler responds
`HTTPException(500, "Error processing file: " + str(e))`, having invoked
the failing adapter exactly once and the later adapter not at all; in the
Flask variant the exception propagates out of the handler unchanged and the
framework reports it as a 500. -/
theorem c3_adapter_failure_is_500 :
    (∀ (ad : Adapters) (f c : String) (st : FastState) (e : String),
      ad.transcribe c = Except.error e →
        (upload_audio ad f c st).1 =
          Response.httpError 500 ("Error processing file: " ++ e) ∧
        (upload_audio ad f c st).2.transcribeCalls = st.transcribeCalls + 1 ∧
        (upload_audio ad f c st).2.llmCalls = st.llmCalls) ∧
    (∀ (ad : Adapters) (f c : String) (st : FastState) (t e : String),
      ad.transcribe c = Except.ok t →
      ad.invoke (medical_report_prompt_format t) = Except.error e →
        (upload_audio ad f c st).1 =
          Response.httpError 500 ("Error processing file: " ++ e) ∧
        (upload_audio ad f c st).2.transcribeCalls = st.transcribeCalls + 1 ∧
        (upload_audio ad f c st).2.llmCalls = st.llmCalls + 1) ∧
    (∀ (fad : FlaskAdapters) (fn c : String) (st : FlaskState) (e : String),
      fn ≠ "" → fad.transcribe c = Except.error e →
        (upload_file fad (some (fn, c)) st).1 = FlaskOutcome.exn e ∧
        (upload_file fad (some (fn, c)) st).1.status = 500 ∧
        (upload_file fad (some (fn, c)) st).2.transcribeCalls = st.transcribeCalls + 1 ∧
        (upload_file fad (some (fn, c)) st).2.summarizeCalls = st.summarizeCalls) ∧
    (∀ (fad : FlaskAdapters) (fn c t : String) (st : FlaskState) (e : String),
      fn ≠ "" → fad.transcribe c = Except.ok t → fad.summarize t = Except.error e →
        (upload_file fad (some (fn, c)) st).1 = FlaskOutcome.exn e ∧
        (upload_file fad (some (fn, c)) st).1.status = 500) := by
  refine ⟨?_, ?_, ?_, ?_⟩
  · intro ad f c st e h
    have htr : transcribeFile ad ((st.fs).write (upload_temp_path f) c) (upload_temp_path f)
        = Except.error e := by
      simp [transcribeFile, FS.read?_write_self, h]
    refine ⟨?_, ?_, ?_⟩ <;> simp [upload_audio, htr, FS.existsb_write_self]
  · intro ad f c st t e h1 h2
    have htr : transcribeFile ad ((st.fs).write (upload_temp_path f) c) (upload_temp_path f)
        = Except.ok t := by
      simp [transcribeFile, FS.read?_write_self, h1]
    refine ⟨?_, ?_, ?_⟩ <;> simp [upload_audio, htr, h2, FS.existsb_write_self]
  · intro fad fn c st e hfn h
    have htr : flaskTranscribeFile fad ((st.fs).write flask_upload_path c) flask_upload_path
        = Except.error e := by
      simp [flaskTranscribeFile, FS.read?_write_self, h]
    refine ⟨?_, ?_, ?_, ?_⟩ <;>
      simp [upload_file, beq_iff_eq, if_neg hfn, process_audio, htr, FlaskOutcome.status]
  · intro fad fn c t st e hfn h1 h2
    have htr : flaskTranscribeFile fad ((st.fs).write flask_upload_path c) flask_upload_path
        = Except.ok t := by
      simp [flaskTranscribeFile, FS.read?_write_self, h1]
    constructor <;>
      simp [upload_file, beq_iff_eq, if_neg hfn, process_audio, htr, h2, FlaskOutcome.status]

/-- Witness for C3 at concrete failing adapters. -/
theorem c3_adapter_failure_is_500_witness :
    errTranscribeAdapters.transcribe "x" = Except.error "boom" ∧
    (upload_audio errTranscribeAdapters "a.wav" "x" fastInit).1 =
      Response.httpError 500 ("Error processing file: " ++ "boom") ∧
    errInvokeAdapters.transcribe "x" = Except.ok "x" ∧
    errInvokeAdapters.invoke (medical_report_prompt_format "x") = Except.error "llmboom" ∧
    (upload_audio errInvokeAdapters "a.wav" "x" fastInit).1 =
      Response.httpError 500 ("Error processing file: " ++ "llmboom") ∧
    flaskErrTranscribe.transcribe "x" = Except.error "fboom" ∧
    (upload_file flaskErrTranscribe (some ("a.wav", "x")) flaskInit).1.status = 500 ∧
    flaskErrSummarize.summarize "x" = Except.error "sboom" ∧
    (upload_file flaskErrSummarize (some ("a.wav", "x")) flaskInit).1 =
      FlaskOutcome.exn "sboom" := by
  refine ⟨rfl, ?_, rfl, rfl, ?_, rfl, ?_, rfl, ?_⟩
  · exact (c3_adapter_failure_is_500.1 errTranscribeAdapters "a.wav" "x" fastInit "boom" rfl).1
  · exact (c3_adapter_failure_is_500.2.1 errInvokeAdapters "a.wav" "x" fastInit "x" "llmboom"
      rfl rfl).1
  · exact (c3_adapter_failure_is_500.2.2.1 flaskErrTranscribe "a.wav" "x" flaskInit "fboom"
      (by decide) rfl).2.1
  · exact (c3_adapter_failure_is_500.2.2.2 flaskErrSummarize "a.wav" "x" "x" flaskInit "sboom"
      (by decide) rfl rfl).1

set_option maxRecDepth 4096 in
/-- C5 counterexample: in the Flask variant an identical payload sent to
`/upload` and to `/record` leaves the process in different states — the two
handlers save the audio under different fixed names — so the endpoints are
not aliases of one operation. -/
theorem c5_counterexample :
    (upload_file flaskOk (some ("a.wav", "x")) flaskInit).2 ≠
      (record_audio flaskOk (some ("a.wav", "x")) flaskInit).2 := by
  decide

/-- C5 (amended): in the FastAPI variant `/record` is a literal alias of
`/upload` (the handler delegates unchanged).  In the Flask variant both
handlers delegate to `process_audio` and return equal responses for equal
non-empty-filename payloads, but they save the audio under different fixed
names (so the resulting filesystems differ) and they treat an
empty-filename payload differently (`No selected file` error versus a
handler returning `None`, an uncaught exception). -/
theorem c5_record_upload_relation :
    (∀ (ad : Adapters) (f c : String) (st : FastState),
      process_recorded_audio ad f c st = upload_audio ad f c st) ∧
    (∀ (fad : FlaskAdapters) (fn c : String) (st : FlaskState), fn ≠ "" →
      (upload_file fad (some (fn, c)) st).1 = (record_audio fad (some (fn, c)) st).1) ∧
    ((upload_file flaskOk (some ("a.wav", "x")) flaskInit).2.fs.existsb
      flask_upload_path = true) ∧
    ((record_audio flaskOk (some ("a.wav", "x")) flaskInit).2.fs.existsb
      flask_upload_path = false) ∧
    ((upload_file flaskOk (some ("", "x")) flaskInit).1 =
      FlaskOutcome.json [("error", JVal.str "No selected file")]) ∧
    ((record_audio flaskOk (some ("", "x")) flaskInit).1 =
      FlaskOutcome.exn "The view function did not return a valid response.") := by
  refine ⟨fun _ _ _ _ => rfl, ?_, by decide, by decide, by decide, by decide⟩
  intro fad fn c st hfn
  simp only [upload_file, record_audio, beq_iff_eq, if_neg hfn, process_audio]
  have h1 : flaskTranscribeFile fad ((st.fs).write flask_upload_path c) flask_upload_path
      = fad.transcribe c := by simp [flaskTranscribeFile, FS.read?_write_self]
  have h2 : flaskTranscribeFile fad ((st.fs).write flask_record_path c) flask_record_path
      = fad.transcribe c := by simp [flaskTranscribeFile, FS.read?_write_self]
  rw [h1, h2]
  cases fad.transcribe c with
  | error e => rfl
  | ok t =>
    cases hs : fad.summarize t with
    | error e => simp [hs]
    | ok s => simp [hs]

/-- Witness for C5 (amended): the Flask response equality at a concrete
non-empty-filename payload. -/
theorem c5_record_upload_relation_witness :
    ("a.wav" : String) ≠ "" ∧
    (upload_file flaskOk (some ("a.wav", "x")) flaskInit).1 =
      (record_audio flaskOk (some ("a.wav", "x")) flaskInit).1 :=
  ⟨by decide, c5_record_upload_relation.2.1 flaskOk "a.wav" "x" flaskInit (by decide)⟩

/-- C6: on a successful upload the stored `summary_data` is the LLM output
prefixed with the `# Medical Report` title line, the response body carries
exactly that string, and an immediately following preview returns it
unchanged without touching the state. -/
theorem c6_report_stored_and_previewed (ad : Adapters) (f c t s : String) (st : FastState)
    (h1 : ad.transcribe c = Except.ok t)
    (h2 : ad.invoke (medical_report_prompt_format t) = Except.ok s) :
    (upload_audio ad f c st).1 =
      Response.json [("summary", "# Medical Report\n\n" ++ s)] ∧
    (upload_audio ad f c st).2.summary_data = some ("# Medical Report\n\n" ++ s) ∧
    (preview_markdown (upload_audio ad f c st).2).1 =
      Response.json [("markdown", "# Medical Report\n\n" ++ s)] ∧
    (preview_markdown (upload_audio ad f c st).2).2 = (upload_audio ad f c st).2 := by
  have htr : transcribeFile ad ((st.fs).write (upload_temp_path f) c) (upload_temp_path f)
      = Except.ok t := by simp [transcribeFile, FS.read?_write_self, h1]
  have hsd : (upload_audio ad f c st).2.summary_data
      = some ("# Medical Report\n\n" ++ s) := by
    simp [upload_audio, htr, h2, FS.existsb_write_self]
  refine ⟨?_, hsd, ?_, ?_⟩
  · simp [upload_audio, htr, h2]
  · simp [preview_markdown, hsd]
  · simp [preview_markdown, hsd]

/-- Witness for C6 at concrete succeeding adapters. -/
theorem c6_report_stored_and_previewed_witness :
    okAdapters.transcribe "x" = Except.ok "x" ∧
    okAdapters.invoke (medical_report_prompt_format "x") = Except.ok "S" ∧
    (upload_audio okAdapters "a.wav" "x" fastInit).1 =
      Response.json [("summary", "# Medical Report\n\n" ++ "S")] ∧
    (preview_markdown (upload_audio okAdapters "a.wav" "x" fastInit).2).1 =
      Response.json [("markdown", "# Medical Report\n\n" ++ "S")] := by
  refine ⟨rfl, rfl, ?_, ?_⟩
  · exact (c6_report_stored_and_previewed okAdapters "a.wav" "x" "x" "S" fastInit rfl rfl).1
  · exact (c6_report_stored_and_previewed okAdapters "a.wav" "x" "x" "S" fastInit rfl rfl).2.2.1

/-- C7 counterexample: two distinct requests that share an uploaded
filename use the very same temporary path, `temp_a.wav` — the temporary
file name is not unique per request. -/
theorem c7_counterexample :
    (("a.wav", "x") : String × String) ≠ ("a.wav", "y") ∧
    upload_temp_path ("a.wav", "x").1 = upload_temp_path ("a.wav", "y").1 := by
  decide

/-- C7 (amended): the temporary path is a deterministic function of the
uploaded filename alone — `temp_` prefixed to it — so requests with
distinct filenames do get distinct paths, but requests sharing a filename
collide; the Flask handlers use fixed paths for every request. -/
theorem c7_temp_path_from_filename :
    (∀ f1 f2 : String, f1 ≠ f2 → upload_temp_path f1 ≠ upload_temp_path f2) ∧
    flask_upload_path = "uploaded_audio.wav" ∧
    flask_record_path = "recorded_audio.wav" := by
  refine ⟨?_, rfl, rfl⟩
  intro f1 f2 h hc
  apply h
  have hd := congrArg String.data hc
  simp only [upload_temp_path, String.data_append] at hd
  exact String.ext (List.append_cancel_left hd)

/-- Witness for C7 (amended) at two concrete distinct filenames. -/
theorem c7_temp_path_from_filename_witness :
    ("a.wav" : String) ≠ "b.wav" ∧
    upload_temp_path "a.wav" ≠ upload_temp_path "b.wav" :=
  ⟨by decide, c7_temp_path_from_filename.1 "a.wav" "b.wav" (by decide)⟩
